import Mathlib

/-!
# Resource population layer of the horizon service

A shallow embedding of `services/horizon/internal/resource/balance.go` and
`services/horizon/internal/resource/history_account.go`.

Go strings are Lean strings, `xdr.Int64` and `xdr.AssetType` are integers
(with an explicit range predicate for the 64-bit case), and a method with a
pointer receiver that mutates its receiver and returns `error` becomes a
function from the receiver's prior content to the pair of its new content
and the returned error (`none` for `nil`).
-/

/-! ## Collaborating packages -/

/-- A Go string; the alias keeps the type apart from the functions named `String`
of the packages `assets` and `amount`. -/
abbrev GoString : Type := String

/-- Modelled from the spec: the `xdr.AssetType` discriminant, an integer enumeration
whose recognized variants are native, credit-alphanum4 and credit-alphanum12. -/
abbrev xdr.AssetType := Int

/-- Modelled from the spec: the `xdr.Int64` scaled amount, a signed 64-bit integer. -/
abbrev xdr.Int64 := Int

/-- Modelled from the spec: the native asset constant of package `xdr`. -/
def xdr.AssetTypeAssetTypeNative : xdr.AssetType := 0

/-- Modelled from the spec: the credit-alphanum4 constant of package `xdr`. -/
def xdr.AssetTypeAssetTypeCreditAlphanum4 : xdr.AssetType := 1

/-- Modelled from the spec: the credit-alphanum12 constant of package `xdr`. -/
def xdr.AssetTypeAssetTypeCreditAlphanum12 : xdr.AssetType := 2

/-- Least value of a signed 64-bit integer. -/
def xdr.MinInt64 : Int := -9223372036854775808

/-- Greatest value of a signed 64-bit integer. -/
def xdr.MaxInt64 : Int := 9223372036854775807

/-- The integer fits a signed 64-bit machine word. -/
def xdr.isInt64 (v : Int) : Prop := xdr.MinInt64 ≤ v ∧ v ≤ xdr.MaxInt64

instance (v : Int) : Decidable (xdr.isInt64 v) := by
  unfold xdr.isInt64; infer_instance

/-- The discriminant is one of the three recognized variants. -/
def xdr.recognized (t : xdr.AssetType) : Prop :=
  t = xdr.AssetTypeAssetTypeNative ∨ t = xdr.AssetTypeAssetTypeCreditAlphanum4 ∨
    t = xdr.AssetTypeAssetTypeCreditAlphanum12

instance (t : xdr.AssetType) : Decidable (xdr.recognized t) := by
  unfold xdr.recognized; infer_instance

/-- Modelled from the spec: the single error kind of the layer (section 7),
raised when a discriminant matches no recognized variant. -/
inductive assets.Error where
  | UnknownAssetType
  deriving DecidableEq, Repr

/-- Modelled from the spec: `assets.String`, the type-resolution function of package
`assets`, whose source is not part of the fragment. It maps each recognized
discriminant to its canonical tag and reports `UnknownAssetType` otherwise
(section 4.1, section 7; the tags are those of the scenarios of section 8).
The spec does not say which string accompanies the error; the empty
string, the zero value of a Go string, stands for it here. -/
def assets.String (aType : xdr.AssetType) : String × Option assets.Error :=
  if aType = xdr.AssetTypeAssetTypeNative then ("native", none)
  else if aType = xdr.AssetTypeAssetTypeCreditAlphanum4 then ("credit_alphanum4", none)
  else if aType = xdr.AssetTypeAssetTypeCreditAlphanum12 then ("credit_alphanum12", none)
  else ("", some assets.Error.UnknownAssetType)

/-- Modelled from the spec: the scale factor of amounts, 10^7 (section 3). -/
def amount.One : Nat := 10000000

/-- Modelled from the spec: `amount.String`, the decimal formatting of package `amount`,
whose source is not part of the fragment. Integer arithmetic only: the sign,
the decimal digits of the magnitude divided by the scale, a point, and the
remainder modulo the scale left-padded with zeros to seven digits
(section 4.1, section 9). The magnitude is an unbounded natural number. -/
def amount.String (v : xdr.Int64) : String :=
  let q := v.natAbs / amount.One
  let r := v.natAbs % amount.One
  let rs := Nat.toDigits 10 r
  String.mk ((if v < 0 then ['-'] else []) ++ Nat.toDigits 10 q ++
    '.' :: (List.replicate (7 - rs.length) '0' ++ rs))

/-- Value of a run of decimal digit characters, most significant first. -/
def amount.digitsValue (ds : List Char) : Nat :=
  ds.foldl (fun a c => 10 * a + (c.toNat - 48)) 0

/-- Modelled from the spec: the inverse scaling parse of package `amount` (section 8):
the decimal string, an optional minus sign, a non-empty run of digits and an
optional point followed by digits, is read as an exact rational, multiplied
by the scale, and returned when the product is an integer that fits 64
bits. -/
def amount.Parse (s : GoString) : Option xdr.Int64 :=
  let cs := s.data
  let neg : Bool := cs.head? = some '-'
  let body := if neg then cs.tail else cs
  let ip := body.takeWhile (fun c => c != '.')
  let fp := (body.dropWhile (fun c => c != '.')).tail
  if ip ≠ [] ∧ (ip ++ fp).all Char.isDigit = true then
    let m : ℚ := (amount.digitsValue (ip ++ fp) : ℚ) / (10 : ℚ) ^ fp.length
    let r : ℚ := (if neg then -m else m) * (amount.One : ℚ)
    if r.den = 1 ∧ xdr.isInt64 r.num then some r.num else none
  else none

/-- The integer-only reference of the amount formatting, written after the words
of the spec (section 9): the sign "-" when the amount is negative, the
decimal digits of |v| div 10^7, a point, and |v| mod 10^7 written in decimal
and left-padded with zeros to seven digits; |v| is an unbounded integer. -/
def amount.StringReference (v : xdr.Int64) : GoString :=
  let a : Int := |v|
  let whole : Nat := (a / 10 ^ 7).toNat
  let part : Nat := (a % 10 ^ 7).toNat
  (if v < 0 then "-" else "") ++ Nat.repr whole ++ "." ++ (Nat.repr part).leftpad 7 '0'

/-- Modelled from the spec: the request context handed to the projections; no routine
of the layer reads it. -/
structure context.Context where
  id : Nat
  deriving DecidableEq, Repr

/-- Modelled from the spec: the trustline record `core.Trustline` (section 3), whose
declaration is not part of the fragment; the fields are those that
`Populate` reads. -/
structure core.Trustline where
  Assettype : xdr.AssetType
  Issuer : String
  Assetcode : String
  Tlimit : xdr.Int64
  Balance : xdr.Int64
  deriving DecidableEq, Repr

/-- Modelled from the spec: the account record `history.Account` (section 3), whose
declaration is not part of the fragment; the field is the one that
`Populate` reads. -/
structure history.Account where
  Address : String
  deriving DecidableEq, Repr

/-! ## Package `resource` -/

set_option linter.dupNamespace false

/-- Modelled from the spec: the balance resource (section 3), whose declaration is not
part of the fragment; the fields are those that `Populate` and
`PopulateNative` write. The Go field `Type` is spelled `Type_`. -/
structure resource.Balance where
  Type_ : String
  Code : String
  Issuer : String
  Balance : String
  Limit : String
  deriving DecidableEq, Repr

/-- Modelled from the spec: the account identity resource (section 3), whose
declaration is not part of the fragment. ID and AccountID are the
identifier and address fields that `Populate` writes; PT is the paging
token of the resource, a field that `Populate` does not assign. -/
structure resource.HistoryAccount where
  ID : String
  PT : String
  AccountID : String
  deriving DecidableEq, Repr

/-- `func (this *Balance) Populate(ctx context.Context, row core.Trustline) (err error)`:
the tag and the error are assigned together, the error is tested, and only
then are the four remaining fields written. -/
def resource.Balance.Populate (this : resource.Balance) (_ctx : context.Context)
    (row : core.Trustline) : resource.Balance × Option assets.Error :=
  let res := assets.String row.Assettype
  let this := { this with Type_ := res.1 }
  let err := res.2
  if err ≠ none then (this, err)
  else
    let this := { this with Balance := amount.String row.Balance }
    let this := { this with Limit := amount.String row.Tlimit }
    let this := { this with Issuer := row.Issuer }
    let this := { this with Code := row.Assetcode }
    (this, err)

/-- `func (this *Balance) PopulateNative(stroops xdr.Int64) (err error)`. -/
def resource.Balance.PopulateNative (this : resource.Balance) (stroops : xdr.Int64) :
    resource.Balance × Option assets.Error :=
  let res := assets.String xdr.AssetTypeAssetTypeNative
  let this := { this with Type_ := res.1 }
  let err := res.2
  if err ≠ none then (this, err)
  else
    let this := { this with Balance := amount.String stroops }
    let this := { this with Limit := "" }
    let this := { this with Issuer := "" }
    let this := { this with Code := "" }
    (this, err)

/-- `func (this *HistoryAccount) Populate(ctx context.Context, row history.Account)`:
two assignments, to ID and to AccountID; every other field of the receiver
keeps its value. -/
def resource.HistoryAccount.Populate (this : resource.HistoryAccount)
    (_ctx : context.Context) (row : history.Account) : resource.HistoryAccount :=
  let this := { this with ID := row.Address }
  let this := { this with AccountID := row.Address }
  this

/-! ## Resolution of the asset type -/

theorem assets_String_recognized (t : xdr.AssetType) (h : xdr.recognized t) :
    (assets.String t).2 = none := by
  rcases h with h | h | h <;> subst h <;> decide

theorem assets_String_unrecognized (t : xdr.AssetType) (h : ¬ xdr.recognized t) :
    assets.String t = ("", some assets.Error.UnknownAssetType) := by
  unfold xdr.recognized at h
  push_neg at h
  obtain ⟨h0, h1, h2⟩ := h
  simp [assets.String, h0, h1, h2]

theorem Balance_Populate_ok (this : resource.Balance) (ctx : context.Context) (row : core.Trustline)
    (h : (assets.String row.Assettype).2 = none) :
    resource.Balance.Populate this ctx row =
      ({ Type_ := (assets.String row.Assettype).1, Code := row.Assetcode, Issuer := row.Issuer,
         Balance := amount.String row.Balance, Limit := amount.String row.Tlimit }, none) := by
  simp [resource.Balance.Populate, h]

theorem Balance_Populate_err (this : resource.Balance) (ctx : context.Context) (row : core.Trustline)
    (h : (assets.String row.Assettype).2 ≠ none) :
    resource.Balance.Populate this ctx row =
      ({ this with Type_ := (assets.String row.Assettype).1 }, (assets.String row.Assettype).2) := by
  simp [resource.Balance.Populate, h]

theorem Balance_PopulateNative_eq (this : resource.Balance) (stroops : xdr.Int64) :
    resource.Balance.PopulateNative this stroops =
      ({ Type_ := "native", Code := "", Issuer := "", Balance := amount.String stroops,
         Limit := "" }, none) := by
  have h : assets.String xdr.AssetTypeAssetTypeNative = ("native", none) := by decide
  simp [resource.Balance.PopulateNative, h]

/-! ## The projections -/

/-- C1: on a trustline record with a recognized discriminant, whatever the resource
held before, `Populate` returns no error and leaves the resource with the
canonical tag of the discriminant, the formatted balance and limit, and the
issuer and asset code of the record, unchanged. -/
theorem Populate_recognized_sets_all_fields (this : resource.Balance) (ctx : context.Context)
    (row : core.Trustline) (h : xdr.recognized row.Assettype) :
    (resource.Balance.Populate this ctx row).2 = none ∧
    (resource.Balance.Populate this ctx row).1.Type_ = (assets.String row.Assettype).1 ∧
    (resource.Balance.Populate this ctx row).1.Balance = amount.String row.Balance ∧
    (resource.Balance.Populate this ctx row).1.Limit = amount.String row.Tlimit ∧
    (resource.Balance.Populate this ctx row).1.Issuer = row.Issuer ∧
    (resource.Balance.Populate this ctx row).1.Code = row.Assetcode := by
  rw [Balance_Populate_ok this ctx row (assets_String_recognized _ h)]
  exact ⟨rfl, rfl, rfl, rfl, rfl, rfl⟩

/-- Witness of C1: a credit-alphanum12 record over a resource that held other content. -/
theorem Populate_recognized_sets_all_fields_witness :
    xdr.recognized (2 : Int) ∧
    (resource.Balance.Populate ⟨"old", "OLDCODE", "GOLD", "9.0000000", "8.0000000"⟩ ⟨0⟩
        ⟨2, "GISSUER", "LONGCODE", 70000000, -15⟩).2 = none ∧
    (resource.Balance.Populate ⟨"old", "OLDCODE", "GOLD", "9.0000000", "8.0000000"⟩ ⟨0⟩
        ⟨2, "GISSUER", "LONGCODE", 70000000, -15⟩).1.Type_ = (assets.String 2).1 ∧
    (resource.Balance.Populate ⟨"old", "OLDCODE", "GOLD", "9.0000000", "8.0000000"⟩ ⟨0⟩
        ⟨2, "GISSUER", "LONGCODE", 70000000, -15⟩).1.Balance = amount.String (-15) ∧
    (resource.Balance.Populate ⟨"old", "OLDCODE", "GOLD", "9.0000000", "8.0000000"⟩ ⟨0⟩
        ⟨2, "GISSUER", "LONGCODE", 70000000, -15⟩).1.Limit = amount.String 70000000 ∧
    (resource.Balance.Populate ⟨"old", "OLDCODE", "GOLD", "9.0000000", "8.0000000"⟩ ⟨0⟩
        ⟨2, "GISSUER", "LONGCODE", 70000000, -15⟩).1.Issuer = "GISSUER" ∧
    (resource.Balance.Populate ⟨"old", "OLDCODE", "GOLD", "9.0000000", "8.0000000"⟩ ⟨0⟩
        ⟨2, "GISSUER", "LONGCODE", 70000000, -15⟩).1.Code = "LONGCODE" :=
  ⟨by decide,
   Populate_recognized_sets_all_fields ⟨"old", "OLDCODE", "GOLD", "9.0000000", "8.0000000"⟩ ⟨0⟩
     ⟨2, "GISSUER", "LONGCODE", 70000000, -15⟩ (by decide)⟩

/-- C2: `Populate` returns an error exactly when the discriminant of the record is
not recognized; the error is the one the type resolution produced, handed on
unchanged, and it is `UnknownAssetType`. -/
theorem Populate_error_iff_unrecognized (this : resource.Balance) (ctx : context.Context)
    (row : core.Trustline) :
    ((resource.Balance.Populate this ctx row).2 ≠ none ↔ ¬ xdr.recognized row.Assettype) ∧
    (resource.Balance.Populate this ctx row).2 = (assets.String row.Assettype).2 ∧
    (resource.Balance.Populate this ctx row).2 =
      (if xdr.recognized row.Assettype then none else some assets.Error.UnknownAssetType) := by
  by_cases h : xdr.recognized row.Assettype
  · have h2 := assets_String_recognized _ h
    rw [Balance_Populate_ok this ctx row h2]
    simp [h, h2]
  · have h2 := assets_String_unrecognized _ h
    have h3 : (assets.String row.Assettype).2 ≠ none := by rw [h2]; simp
    rw [Balance_Populate_err this ctx row h3]
    simp [h, h2]

/-- C3, the claim fails: on the unrecognized discriminant 7 the call reports
`UnknownAssetType`, yet the resource that held the tag "native" before the
call does not hold it afterwards, so the resource has changed. -/
theorem Populate_failure_mutates_Type :
    ¬ xdr.recognized (7 : Int) ∧
    (resource.Balance.Populate ⟨"native", "USD", "GISSUER", "1.0000000", "2.0000000"⟩ ⟨0⟩
        ⟨7, "GOTHER", "EUR", 5, 6⟩).2 = some assets.Error.UnknownAssetType ∧
    (resource.Balance.Populate ⟨"native", "USD", "GISSUER", "1.0000000", "2.0000000"⟩ ⟨0⟩
        ⟨7, "GOTHER", "EUR", 5, 6⟩).1 ≠
      ⟨"native", "USD", "GISSUER", "1.0000000", "2.0000000"⟩ := by
  decide

/-- C3 as amended: on a record with an unrecognized discriminant, whatever the
resource held before, `Populate` fails with `UnknownAssetType`, the fields
Code, Issuer, Balance and Limit are as they were before the call, and Type
holds the string the type resolution returned with the error. -/
theorem Populate_failure_keeps_other_fields (this : resource.Balance) (ctx : context.Context)
    (row : core.Trustline) (h : ¬ xdr.recognized row.Assettype) :
    (resource.Balance.Populate this ctx row).2 = some assets.Error.UnknownAssetType ∧
    (resource.Balance.Populate this ctx row).1.Code = this.Code ∧
    (resource.Balance.Populate this ctx row).1.Issuer = this.Issuer ∧
    (resource.Balance.Populate this ctx row).1.Balance = this.Balance ∧
    (resource.Balance.Populate this ctx row).1.Limit = this.Limit ∧
    (resource.Balance.Populate this ctx row).1.Type_ = (assets.String row.Assettype).1 := by
  have h2 := assets_String_unrecognized _ h
  have h3 : (assets.String row.Assettype).2 ≠ none := by rw [h2]; simp
  rw [Balance_Populate_err this ctx row h3, h2]
  exact ⟨rfl, rfl, rfl, rfl, rfl, rfl⟩

/-- Witness of the amended C3: discriminant -4 over a populated resource. -/
theorem Populate_failure_keeps_other_fields_witness :
    ¬ xdr.recognized (-4 : Int) ∧
    (resource.Balance.Populate ⟨"credit_alphanum4", "USD", "GISSUER", "1.0000000", "2.0000000"⟩
        ⟨3⟩ ⟨-4, "GOTHER", "EUR", 5, 6⟩).2 = some assets.Error.UnknownAssetType ∧
    (resource.Balance.Populate ⟨"credit_alphanum4", "USD", "GISSUER", "1.0000000", "2.0000000"⟩
        ⟨3⟩ ⟨-4, "GOTHER", "EUR", 5, 6⟩).1.Code = "USD" ∧
    (resource.Balance.Populate ⟨"credit_alphanum4", "USD", "GISSUER", "1.0000000", "2.0000000"⟩
        ⟨3⟩ ⟨-4, "GOTHER", "EUR", 5, 6⟩).1.Issuer = "GISSUER" ∧
    (resource.Balance.Populate ⟨"credit_alphanum4", "USD", "GISSUER", "1.0000000", "2.0000000"⟩
        ⟨3⟩ ⟨-4, "GOTHER", "EUR", 5, 6⟩).1.Balance = "1.0000000" ∧
    (resource.Balance.Populate ⟨"credit_alphanum4", "USD", "GISSUER", "1.0000000", "2.0000000"⟩
        ⟨3⟩ ⟨-4, "GOTHER", "EUR", 5, 6⟩).1.Limit = "2.0000000" ∧
    (resource.Balance.Populate ⟨"credit_alphanum4", "USD", "GISSUER", "1.0000000", "2.0000000"⟩
        ⟨3⟩ ⟨-4, "GOTHER", "EUR", 5, 6⟩).1.Type_ = (assets.String (-4)).1 :=
  ⟨by decide,
   Populate_failure_keeps_other_fields
     ⟨"credit_alphanum4", "USD", "GISSUER", "1.0000000", "2.0000000"⟩ ⟨3⟩
     ⟨-4, "GOTHER", "EUR", 5, 6⟩ (by decide)⟩

/-- C6: for every amount, whatever its value or sign and whatever the resource
held before, `PopulateNative` leaves the resource with the native tag, the
formatted amount as Balance, and empty Code, Issuer and Limit. -/
theorem PopulateNative_sets_all_fields (this : resource.Balance) (stroops : xdr.Int64) :
    (resource.Balance.PopulateNative this stroops).1.Type_ =
      (assets.String xdr.AssetTypeAssetTypeNative).1 ∧
    (resource.Balance.PopulateNative this stroops).1.Balance = amount.String stroops ∧
    (resource.Balance.PopulateNative this stroops).1.Code = "" ∧
    (resource.Balance.PopulateNative this stroops).1.Issuer = "" ∧
    (resource.Balance.PopulateNative this stroops).1.Limit = "" := by
  have h : (assets.String xdr.AssetTypeAssetTypeNative).1 = "native" := by decide
  rw [Balance_PopulateNative_eq, h]
  exact ⟨rfl, rfl, rfl, rfl, rfl⟩

/-- C8: `HistoryAccount.Populate` is a total function that sets both ID and
AccountID to the address of the record as it stands, the empty address
included; the address "GADDR123" gives ID = AccountID = "GADDR123". -/
theorem HistoryAccount_Populate_copies_address (this : resource.HistoryAccount)
    (ctx : context.Context) (row : history.Account) :
    (resource.HistoryAccount.Populate this ctx row).ID = row.Address ∧
    (resource.HistoryAccount.Populate this ctx row).AccountID = row.Address ∧
    resource.HistoryAccount.Populate this ctx ⟨"GADDR123"⟩ =
      { ID := "GADDR123", PT := this.PT, AccountID := "GADDR123" } ∧
    resource.HistoryAccount.Populate this ctx ⟨""⟩ =
      { ID := "", PT := this.PT, AccountID := "" } :=
  ⟨rfl, rfl, rfl, rfl⟩

theorem assets_String_tag_injective (a b : xdr.AssetType) (ha : xdr.recognized a)
    (hb : xdr.recognized b) (h : (assets.String a).1 = (assets.String b).1) : a = b := by
  rcases ha with ha | ha | ha <;> rcases hb with hb | hb | hb <;> subst ha <;> subst hb <;>
    first
      | rfl
      | exact absurd h (by decide)

theorem Balance_Populate_Type (this : resource.Balance) (ctx : context.Context)
    (row : core.Trustline) :
    (resource.Balance.Populate this ctx row).1.Type_ = (assets.String row.Assettype).1 := by
  by_cases h : (assets.String row.Assettype).2 = none
  · rw [Balance_Populate_ok this ctx row h]
  · rw [Balance_Populate_err this ctx row h]

/-- C9: the tag written to Type depends on the discriminant alone: native gives
"native", credit-alphanum4 gives "credit_alphanum4", credit-alphanum12 gives
"credit_alphanum12", the three tags differ from one another, records with the
same discriminant get the same tag whatever their other fields and whatever
the resources held, and recognized discriminants with the same tag are equal. -/
theorem type_tag_fixed_and_injective (this1 this2 : resource.Balance)
    (ctx1 ctx2 : context.Context) (row1 row2 : core.Trustline) (stroops : xdr.Int64) :
    assets.String xdr.AssetTypeAssetTypeNative = ("native", none) ∧
    assets.String xdr.AssetTypeAssetTypeCreditAlphanum4 = ("credit_alphanum4", none) ∧
    assets.String xdr.AssetTypeAssetTypeCreditAlphanum12 = ("credit_alphanum12", none) ∧
    (assets.String xdr.AssetTypeAssetTypeNative).1 ≠
      (assets.String xdr.AssetTypeAssetTypeCreditAlphanum4).1 ∧
    (assets.String xdr.AssetTypeAssetTypeNative).1 ≠
      (assets.String xdr.AssetTypeAssetTypeCreditAlphanum12).1 ∧
    (assets.String xdr.AssetTypeAssetTypeCreditAlphanum4).1 ≠
      (assets.String xdr.AssetTypeAssetTypeCreditAlphanum12).1 ∧
    (resource.Balance.Populate this1 ctx1 row1).1.Type_ = (assets.String row1.Assettype).1 ∧
    (resource.Balance.PopulateNative this1 stroops).1.Type_ = "native" ∧
    (row1.Assettype = row2.Assettype →
      (resource.Balance.Populate this1 ctx1 row1).1.Type_ =
        (resource.Balance.Populate this2 ctx2 row2).1.Type_) ∧
    (xdr.recognized row1.Assettype → xdr.recognized row2.Assettype →
      (resource.Balance.Populate this1 ctx1 row1).1.Type_ =
        (resource.Balance.Populate this2 ctx2 row2).1.Type_ →
      row1.Assettype = row2.Assettype) := by
  refine ⟨by decide, by decide, by decide, by decide, by decide, by decide,
    Balance_Populate_Type this1 ctx1 row1, ?_, ?_, ?_⟩
  · rw [Balance_PopulateNative_eq]
  · intro h
    rw [Balance_Populate_Type, Balance_Populate_Type, h]
  · intro h1 h2 h
    rw [Balance_Populate_Type, Balance_Populate_Type] at h
    exact assets_String_tag_injective _ _ h1 h2 h

/-- Witness of C9: two records that share the discriminant credit-alphanum4 and
nothing else, over resources with different content. -/
theorem type_tag_fixed_and_injective_witness :
    (resource.Balance.Populate ⟨"a", "b", "c", "d", "e"⟩ ⟨1⟩ ⟨1, "GONE", "USD", 10, 20⟩).1.Type_ =
      (resource.Balance.Populate ⟨"", "", "", "", ""⟩ ⟨2⟩ ⟨1, "GTWO", "EUR", -3, 0⟩).1.Type_ ∧
    (1 : Int) = 1 :=
  ⟨(type_tag_fixed_and_injective ⟨"a", "b", "c", "d", "e"⟩ ⟨"", "", "", "", ""⟩ ⟨1⟩ ⟨2⟩
      ⟨1, "GONE", "USD", 10, 20⟩ ⟨1, "GTWO", "EUR", -3, 0⟩ 0).2.2.2.2.2.2.2.2.1 rfl,
   (type_tag_fixed_and_injective ⟨"a", "b", "c", "d", "e"⟩ ⟨"", "", "", "", ""⟩ ⟨1⟩ ⟨2⟩
      ⟨1, "GONE", "USD", 10, 20⟩ ⟨1, "GTWO", "EUR", -3, 0⟩ 0).2.2.2.2.2.2.2.2.2
      (by decide) (by decide) (by decide)⟩

/-- C10: the scenario of the credit-alphanum4 trustline "USD" issued by "GISSUER"
with balance 1234567890 and limit 9000000000000: `Populate` succeeds and the
resource is exactly the one of the scenario, whatever it held before. -/
theorem Populate_scenario_USD (this : resource.Balance) (ctx : context.Context) :
    resource.Balance.Populate this ctx
        { Assettype := xdr.AssetTypeAssetTypeCreditAlphanum4, Assetcode := "USD",
          Issuer := "GISSUER", Balance := 1234567890, Tlimit := 9000000000000 } =
      ({ Type_ := "credit_alphanum4", Code := "USD", Issuer := "GISSUER",
         Balance := "123.4567890", Limit := "900000.0000000" }, none) := by
  rw [Balance_Populate_ok this ctx _ (by decide)]
  decide

/-! ## Decimal digits -/

theorem digitChar_isDigit (m : Nat) (h : m < 10) :
    (Nat.digitChar m).isDigit = true ∧ (Nat.digitChar m).toNat - 48 = m := by
  interval_cases m <;> exact ⟨by decide, by decide⟩

theorem digitsValue_snoc (ds : List Char) (c : Char) :
    amount.digitsValue (ds ++ [c]) = 10 * amount.digitsValue ds + (c.toNat - 48) := by
  simp [amount.digitsValue, List.foldl_append]

theorem digitsValue_foldl (ds : List Char) : ∀ a : Nat,
    ds.foldl (fun a c => 10 * a + (c.toNat - 48)) a =
      a * 10 ^ ds.length + amount.digitsValue ds := by
  induction ds with
  | nil => intro a; simp [amount.digitsValue]
  | cons c cs ih =>
    intro a
    have h1 := ih (10 * a + (c.toNat - 48))
    have h2 := ih (10 * 0 + (c.toNat - 48))
    simp only [List.foldl_cons, List.length_cons, amount.digitsValue] at *
    rw [h1, h2]
    ring

theorem digitsValue_append (xs ys : List Char) :
    amount.digitsValue (xs ++ ys) =
      amount.digitsValue xs * 10 ^ ys.length + amount.digitsValue ys := by
  unfold amount.digitsValue
  rw [List.foldl_append, digitsValue_foldl]
  rfl

theorem digitsValue_zeros (k : Nat) (ds : List Char) :
    amount.digitsValue (List.replicate k '0' ++ ds) = amount.digitsValue ds := by
  rw [digitsValue_append]
  have h : amount.digitsValue (List.replicate k '0') = 0 := by
    induction k with
    | zero => rfl
    | succ k ih =>
      rw [List.replicate_succ', digitsValue_snoc, ih]
      decide
  rw [h]
  simp

/-- The digit loop of the standard library only ever puts characters in front
of its accumulator. -/
theorem toDigitsCore_acc (fuel n : Nat) (acc : List Char) :
    Nat.toDigitsCore 10 fuel n acc = Nat.toDigitsCore 10 fuel n [] ++ acc := by
  induction fuel generalizing n acc with
  | zero => simp [Nat.toDigitsCore]
  | succ k ih =>
    simp only [Nat.toDigitsCore]
    split
    · simp
    · rw [ih (n / 10) (Nat.digitChar (n % 10) :: acc), ih (n / 10) [Nat.digitChar (n % 10)]]
      simp

/-- One round of the digit loop: the digits of the quotient, then the last digit. -/
theorem toDigitsCore_step (k n : Nat) :
    Nat.toDigitsCore 10 (k + 1) n [] =
      if n / 10 = 0 then [Nat.digitChar (n % 10)]
      else Nat.toDigitsCore 10 k (n / 10) [] ++ [Nat.digitChar (n % 10)] := by
  simp only [Nat.toDigitsCore]
  split
  · rfl
  · exact toDigitsCore_acc k (n / 10) [Nat.digitChar (n % 10)]

/-- With enough fuel the digit loop yields a non-empty run of digit characters
whose value is the number. -/
theorem toDigitsCore_digits (fuel n : Nat) (hn : n < fuel) :
    Nat.toDigitsCore 10 fuel n [] ≠ [] ∧
      (∀ c ∈ Nat.toDigitsCore 10 fuel n [], c.isDigit = true) ∧
      amount.digitsValue (Nat.toDigitsCore 10 fuel n []) = n := by
  induction fuel generalizing n with
  | zero => exact absurd hn (Nat.not_lt_zero n)
  | succ k ih =>
    obtain ⟨hdig, hval⟩ := digitChar_isDigit (n % 10) (Nat.mod_lt n (by decide))
    rw [toDigitsCore_step]
    by_cases h0 : n / 10 = 0
    · rw [if_pos h0]
      refine ⟨List.cons_ne_nil _ _, ?_, ?_⟩
      · intro c hc
        rw [List.mem_singleton.mp hc]
        exact hdig
      · have h1 := digitsValue_snoc [] (Nat.digitChar (n % 10))
        rw [List.nil_append] at h1
        rw [h1, hval]
        have h2 : amount.digitsValue [] = 0 := rfl
        omega
    · rw [if_neg h0]
      obtain ⟨_, hds, hv⟩ := ih (n / 10) (by omega)
      refine ⟨by simp, ?_, ?_⟩
      · intro c hc
        rcases List.mem_append.mp hc with hc | hc
        · exact hds c hc
        · rw [List.mem_singleton.mp hc]
          exact hdig
      · rw [digitsValue_snoc, hv, hval]
        omega

theorem toDigits_run (n : Nat) :
    Nat.toDigits 10 n ≠ [] ∧ (∀ c ∈ Nat.toDigits 10 n, c.isDigit = true) ∧
      amount.digitsValue (Nat.toDigits 10 n) = n :=
  toDigitsCore_digits (n + 1) n (Nat.lt_succ_self n)

theorem toDigits_length_le_seven (r : Nat) (h : r < amount.One) :
    (Nat.toDigits 10 r).length ≤ 7 :=
  Nat.toDigitsCore_length 10 (by decide) (r + 1) r 7 (by unfold amount.One at h; omega)
    (by decide)

/-- The characters of a formatted amount: sign, integer digits, point, seven
fraction digits. -/
theorem amount_String_data (v : xdr.Int64) :
    (amount.String v).data =
      (if v < 0 then ['-'] else []) ++ Nat.toDigits 10 (v.natAbs / amount.One) ++
        '.' :: (List.replicate (7 - (Nat.toDigits 10 (v.natAbs % amount.One)).length) '0' ++
          Nat.toDigits 10 (v.natAbs % amount.One)) := rfl

theorem amount_String_fraction (v : xdr.Int64) :
    (List.replicate (7 - (Nat.toDigits 10 (v.natAbs % amount.One)).length) '0' ++
        Nat.toDigits 10 (v.natAbs % amount.One)).length = 7 ∧
    (∀ c ∈ List.replicate (7 - (Nat.toDigits 10 (v.natAbs % amount.One)).length) '0' ++
        Nat.toDigits 10 (v.natAbs % amount.One), c.isDigit = true) := by
  have hlen := toDigits_length_le_seven (v.natAbs % amount.One)
    (Nat.mod_lt _ (by decide))
  constructor
  · rw [List.length_append, List.length_replicate]
    omega
  · intro c hc
    rw [List.mem_append] at hc
    rcases hc with hc | hc
    · rw [List.eq_of_mem_replicate hc]; decide
    · exact (toDigits_run _).2.1 c hc

theorem amount_String_prefix (v : xdr.Int64) :
    ∀ c ∈ (if v < 0 then ['-'] else []) ++ Nat.toDigits 10 (v.natAbs / amount.One),
      c = '-' ∨ c.isDigit = true := by
  intro c hc
  rw [List.mem_append] at hc
  rcases hc with hc | hc
  · by_cases hv : v < 0
    · rw [if_pos hv, List.mem_singleton] at hc
      exact Or.inl hc
    · rw [if_neg hv] at hc
      exact absurd hc (List.not_mem_nil c)
  · exact Or.inr ((toDigits_run _).2.1 c hc)

theorem takeWhile_digits (qs rest : List Char) (hqd : ∀ c ∈ qs, c.isDigit = true) :
    (qs ++ '.' :: rest).takeWhile (fun c => c != '.') = qs ∧
    ((qs ++ '.' :: rest).dropWhile (fun c => c != '.')).tail = rest := by
  have hp : ∀ c ∈ qs, (fun c => c != '.') c = true := by
    intro c hc
    have hd := hqd c hc
    have hne : c ≠ '.' := by
      intro h
      rw [h] at hd
      exact absurd hd (by decide)
    simpa using hne
  constructor
  · rw [List.takeWhile_append_of_pos hp]
    simp
  · rw [List.dropWhile_append_of_pos hp]
    simp

/-- The parse of a string made of an optional sign, a run of digits, a point and
seven digits. -/
theorem Parse_of_parts (cs qs frac : List Char) (neg : Bool) (n : Nat)
    (hhead : decide (cs.head? = some '-') = neg)
    (hbody : (if neg = true then cs.tail else cs) = qs ++ '.' :: frac)
    (hq : qs ≠ []) (hqd : ∀ c ∈ qs, c.isDigit = true) (hfd : ∀ c ∈ frac, c.isDigit = true)
    (hlen : frac.length = 7) (hval : amount.digitsValue (qs ++ frac) = n)
    (hr : xdr.isInt64 (if neg = true then -(n : Int) else (n : Int))) :
    amount.Parse (String.mk cs) = some (if neg = true then -(n : Int) else (n : Int)) := by
  obtain ⟨htake, hdrop⟩ := takeWhile_digits qs frac hqd
  have hall : (qs ++ frac).all Char.isDigit = true := by
    rw [List.all_eq_true]
    intro c hc
    rw [List.mem_append] at hc
    rcases hc with hc | hc
    · exact hqd c hc
    · exact hfd c hc
  have hrat : (if neg = true then -((n : ℚ) / (10 : ℚ) ^ 7) else (n : ℚ) / (10 : ℚ) ^ 7) *
      ((amount.One : ℕ) : ℚ) = (((if neg = true then -(n : Int) else (n : Int)) : Int) : ℚ) := by
    cases neg <;> simp [amount.One] <;> norm_num
  unfold amount.Parse
  simp only [hhead, hbody, htake, hdrop, hlen, hval, hq, hall, ne_eq, not_false_eq_true,
    and_self, if_true]
  rw [hrat]
  rw [if_pos ⟨Rat.intCast_den _, by rw [Rat.intCast_num]; exact hr⟩, Rat.intCast_num]

/-- C4: the formatted amount is a prefix of sign and digits, one decimal point,
and exactly seven decimal digits; the point occurs once and no exponent
marker occurs, for every 64-bit amount, the least and the greatest ones
included. -/
theorem amount_String_seven_decimals (v : xdr.Int64) (_h : xdr.isInt64 v) :
    ∃ pre frac : List Char, (amount.String v).data = pre ++ '.' :: frac ∧
      (∀ c ∈ pre, c = '-' ∨ c.isDigit = true) ∧
      frac.length = 7 ∧ (∀ c ∈ frac, c.isDigit = true) ∧
      (amount.String v).data.count '.' = 1 ∧
      'e' ∉ (amount.String v).data ∧ 'E' ∉ (amount.String v).data := by
  have hpre := amount_String_prefix v
  obtain ⟨hlen, hfrac⟩ := amount_String_fraction v
  have hnot : ∀ x : Char, x ≠ '-' → x ≠ '.' → x.isDigit = false →
      x ∉ (amount.String v).data := by
    intro x h1 h2 h3 hx
    rw [amount_String_data, List.mem_append, List.mem_cons] at hx
    rcases hx with hx | hx | hx
    · rcases hpre x hx with h | h
      · exact h1 h
      · rw [h] at h3; exact absurd h3 (by decide)
    · exact h2 hx
    · rw [hfrac x hx] at h3; exact absurd h3 (by decide)
  refine ⟨_, _, amount_String_data v, hpre, hlen, hfrac, ?_,
    hnot 'e' (by decide) (by decide) (by decide), hnot 'E' (by decide) (by decide) (by decide)⟩
  have h1 : List.count '.' ((if v < 0 then ['-'] else []) ++
      Nat.toDigits 10 (v.natAbs / amount.One)) = 0 := by
    apply List.count_eq_zero_of_not_mem
    intro hx
    rcases hpre '.' hx with h | h
    · exact absurd h (by decide)
    · exact absurd h (by decide)
  have h2 : List.count '.' (List.replicate (7 - (Nat.toDigits 10 (v.natAbs % amount.One)).length)
      '0' ++ Nat.toDigits 10 (v.natAbs % amount.One)) = 0 := by
    apply List.count_eq_zero_of_not_mem
    intro hx
    exact absurd (hfrac '.' hx) (by decide)
  rw [amount_String_data, List.count_append, List.count_cons_self, h1, h2]

/-- Witness of C4: the least 64-bit amount. -/
theorem amount_String_seven_decimals_witness :
    xdr.isInt64 (-9223372036854775808) ∧
    ∃ pre frac : List Char, (amount.String (-9223372036854775808)).data = pre ++ '.' :: frac ∧
      (∀ c ∈ pre, c = '-' ∨ c.isDigit = true) ∧
      frac.length = 7 ∧ (∀ c ∈ frac, c.isDigit = true) ∧
      (amount.String (-9223372036854775808)).data.count '.' = 1 ∧
      'e' ∉ (amount.String (-9223372036854775808)).data ∧
      'E' ∉ (amount.String (-9223372036854775808)).data :=
  ⟨by decide, amount_String_seven_decimals (-9223372036854775808) (by decide)⟩

/-- C5: parsing the formatted amount with the inverse scaling parse succeeds and
gives the amount back, for every 64-bit amount; hence two 64-bit amounts with
the same string are equal. -/
theorem Parse_String_roundtrip (v w : xdr.Int64) (hv : xdr.isInt64 v) (hw : xdr.isInt64 w) :
    amount.Parse (amount.String v) = some v ∧
    (amount.String v = amount.String w → v = w) := by
  have key : ∀ u : xdr.Int64, xdr.isInt64 u → amount.Parse (amount.String u) = some u := by
    intro u hu
    obtain ⟨hlen, hfrac⟩ := amount_String_fraction u
    obtain ⟨hne, hqd, hqv⟩ := toDigits_run (u.natAbs / amount.One)
    have hval : amount.digitsValue (Nat.toDigits 10 (u.natAbs / amount.One) ++
        (List.replicate (7 - (Nat.toDigits 10 (u.natAbs % amount.One)).length) '0' ++
          Nat.toDigits 10 (u.natAbs % amount.One))) = u.natAbs := by
      rw [digitsValue_append, hlen, digitsValue_zeros, hqv, (toDigits_run _).2.2]
      have := Nat.div_add_mod u.natAbs amount.One
      unfold amount.One at *
      omega
    have hshape : amount.String u = String.mk (amount.String u).data := rfl
    rw [hshape]
    by_cases hneg : u < 0
    · have hu2 : (if true = true then -((u.natAbs : Nat) : Int) else ((u.natAbs : Nat) : Int)) = u := by
        simp only [if_true]
        rw [Int.ofNat_natAbs_of_nonpos (le_of_lt hneg), neg_neg]
      have := Parse_of_parts (amount.String u).data _ _ true u.natAbs
        (by rw [amount_String_data, if_pos hneg]; rfl)
        (by rw [amount_String_data, if_pos hneg]; rfl) hne hqd hfrac hlen hval
        (by rw [hu2]; exact hu)
      rw [this, hu2]
    · have hu2 : (if false = true then -((u.natAbs : Nat) : Int) else ((u.natAbs : Nat) : Int)) = u := by
        simp only [Bool.false_eq_true, if_false]
        exact Int.natAbs_of_nonneg (not_lt.mp hneg)
      have hhead : decide ((amount.String u).data.head? = some '-') = false := by
        rw [amount_String_data, if_neg hneg, List.nil_append]
        cases hds : Nat.toDigits 10 (u.natAbs / amount.One) with
        | nil => exact absurd hds hne
        | cons d ds =>
          have hd : d.isDigit = true := hqd d (by rw [hds]; exact List.mem_cons_self d ds)
          have : d ≠ '-' := by
            intro h; rw [h] at hd; exact absurd hd (by decide)
          simpa using this
      have := Parse_of_parts (amount.String u).data _ _ false u.natAbs hhead
        (by rw [amount_String_data, if_neg hneg]; rfl) hne hqd hfrac hlen hval
        (by rw [hu2]; exact hu)
      rw [this, hu2]
  refine ⟨key v hv, ?_⟩
  intro h
  have h1 := key v hv
  rw [h, key w hw] at h1
  exact (Option.some.inj h1).symm

/-- Witness of C5: the least and the greatest 64-bit amounts. -/
theorem Parse_String_roundtrip_witness :
    xdr.isInt64 (-9223372036854775808) ∧ xdr.isInt64 9223372036854775807 ∧
    amount.Parse (amount.String (-9223372036854775808)) = some (-9223372036854775808) ∧
    (amount.String (-9223372036854775808) = amount.String 9223372036854775807 →
      (-9223372036854775808 : Int) = 9223372036854775807) :=
  ⟨by decide, by decide,
   Parse_String_roundtrip (-9223372036854775808) 9223372036854775807 (by decide) (by decide)⟩

theorem Balance_Populate_error (this : resource.Balance) (ctx : context.Context)
    (row : core.Trustline) :
    (resource.Balance.Populate this ctx row).2 = (assets.String row.Assettype).2 := by
  by_cases h : (assets.String row.Assettype).2 = none
  · rw [Balance_Populate_ok this ctx row h, h]
  · rw [Balance_Populate_err this ctx row h]

theorem amount_String_ne_empty (v : xdr.Int64) : amount.String v ≠ "" := by
  intro h
  have hd := congrArg String.data h
  rw [amount_String_data] at hd
  simp at hd

/-- C7, the claim fails: `Populate` on a native trustline record with empty code
and issuer and limit 0 succeeds and writes the native tag, yet Limit is
"0.0000000", not the empty string. -/
theorem Populate_native_Limit_not_empty :
    (resource.Balance.Populate ⟨"", "", "", "", ""⟩ ⟨0⟩
        ⟨xdr.AssetTypeAssetTypeNative, "", "", 0, 0⟩).2 = none ∧
    (resource.Balance.Populate ⟨"", "", "", "", ""⟩ ⟨0⟩
        ⟨xdr.AssetTypeAssetTypeNative, "", "", 0, 0⟩).1.Type_ = "native" ∧
    (resource.Balance.Populate ⟨"", "", "", "", ""⟩ ⟨0⟩
        ⟨xdr.AssetTypeAssetTypeNative, "", "", 0, 0⟩).1.Limit = "0.0000000" ∧
    (resource.Balance.Populate ⟨"", "", "", "", ""⟩ ⟨0⟩
        ⟨xdr.AssetTypeAssetTypeNative, "", "", 0, 0⟩).1.Limit ≠ "" := by
  decide

/-- C7 as amended: every resource produced by `PopulateNative` carries the native
tag and empty Code, Issuer and Limit; a resource produced by a successful
`Populate` that carries the native tag comes from a record with the native
discriminant, its Code and Issuer are those of the record, and its Limit is
the formatted limit of the record, which is not empty. -/
theorem native_tag_fields (this : resource.Balance) (ctx : context.Context)
    (row : core.Trustline) (stroops : xdr.Int64)
    (hok : (resource.Balance.Populate this ctx row).2 = none)
    (htag : (resource.Balance.Populate this ctx row).1.Type_ =
      (assets.String xdr.AssetTypeAssetTypeNative).1) :
    ((resource.Balance.PopulateNative this stroops).2 = none ∧
      (resource.Balance.PopulateNative this stroops).1.Type_ =
        (assets.String xdr.AssetTypeAssetTypeNative).1 ∧
      (resource.Balance.PopulateNative this stroops).1.Code = "" ∧
      (resource.Balance.PopulateNative this stroops).1.Issuer = "" ∧
      (resource.Balance.PopulateNative this stroops).1.Limit = "") ∧
    (row.Assettype = xdr.AssetTypeAssetTypeNative ∧
      (resource.Balance.Populate this ctx row).1.Code = row.Assetcode ∧
      (resource.Balance.Populate this ctx row).1.Issuer = row.Issuer ∧
      (resource.Balance.Populate this ctx row).1.Limit = amount.String row.Tlimit ∧
      (resource.Balance.Populate this ctx row).1.Limit ≠ "") := by
  have hn : (assets.String xdr.AssetTypeAssetTypeNative).1 = "native" := by decide
  constructor
  · rw [Balance_PopulateNative_eq, hn]
    exact ⟨rfl, rfl, rfl, rfl, rfl⟩
  · have herr : (assets.String row.Assettype).2 = none := by
      rw [← Balance_Populate_error this ctx row]; exact hok
    have hrec : xdr.recognized row.Assettype := by
      by_contra hnr
      rw [assets_String_unrecognized _ hnr] at herr
      exact absurd herr (by simp)
    rw [Balance_Populate_Type] at htag
    have hnat := assets_String_tag_injective _ _ hrec (Or.inl rfl) htag
    rw [Balance_Populate_ok this ctx row herr]
    exact ⟨hnat, rfl, rfl, rfl, amount_String_ne_empty _⟩

/-- Witness of the amended C7: a native record that carries a code, an issuer and
a limit. -/
theorem native_tag_fields_witness :
    ((resource.Balance.PopulateNative ⟨"t", "c", "i", "b", "l"⟩ (-5)).2 = none ∧
      (resource.Balance.PopulateNative ⟨"t", "c", "i", "b", "l"⟩ (-5)).1.Type_ =
        (assets.String xdr.AssetTypeAssetTypeNative).1 ∧
      (resource.Balance.PopulateNative ⟨"t", "c", "i", "b", "l"⟩ (-5)).1.Code = "" ∧
      (resource.Balance.PopulateNative ⟨"t", "c", "i", "b", "l"⟩ (-5)).1.Issuer = "" ∧
      (resource.Balance.PopulateNative ⟨"t", "c", "i", "b", "l"⟩ (-5)).1.Limit = "") ∧
    ((0 : Int) = xdr.AssetTypeAssetTypeNative ∧
      (resource.Balance.Populate ⟨"t", "c", "i", "b", "l"⟩ ⟨0⟩
          ⟨0, "GISSUER", "XLM", 100, 3⟩).1.Code = "XLM" ∧
      (resource.Balance.Populate ⟨"t", "c", "i", "b", "l"⟩ ⟨0⟩
          ⟨0, "GISSUER", "XLM", 100, 3⟩).1.Issuer = "GISSUER" ∧
      (resource.Balance.Populate ⟨"t", "c", "i", "b", "l"⟩ ⟨0⟩
          ⟨0, "GISSUER", "XLM", 100, 3⟩).1.Limit = amount.String 100 ∧
      (resource.Balance.Populate ⟨"t", "c", "i", "b", "l"⟩ ⟨0⟩
          ⟨0, "GISSUER", "XLM", 100, 3⟩).1.Limit ≠ "") :=
  native_tag_fields ⟨"t", "c", "i", "b", "l"⟩ ⟨0⟩ ⟨0, "GISSUER", "XLM", 100, 3⟩ (-5)
    (by decide) (by decide)

/-! ## The native entry point and the shared rules -/

/-- C11: the scenario of the native amount 500000000: `PopulateNative` succeeds
and the resource is exactly the native tag, empty Code and Issuer, Balance
"50.0000000" and empty Limit, whatever it held before. -/
theorem PopulateNative_scenario_fifty (this : resource.Balance) :
    resource.Balance.PopulateNative this 500000000 =
      ({ Type_ := "native", Code := "", Issuer := "", Balance := "50.0000000", Limit := "" },
        none) := by
  rw [Balance_PopulateNative_eq]
  decide

/-- C12: `PopulateNative` never fails: the native constant is a recognized variant,
the type resolution returns no error on it, and so the returned error is nil
for every amount and every prior resource. -/
theorem PopulateNative_never_fails (this : resource.Balance) (stroops : xdr.Int64) :
    xdr.recognized xdr.AssetTypeAssetTypeNative ∧
    (assets.String xdr.AssetTypeAssetTypeNative).2 = none ∧
    (resource.Balance.PopulateNative this stroops).2 = none := by
  rw [Balance_PopulateNative_eq]
  exact ⟨Or.inl rfl, by decide, rfl⟩

/-- C13: the two entry points share the formatting rule and the type resolution:
on a record with a recognized discriminant and balance v, `Populate` writes
the same Balance string as `PopulateNative` on v, and on a record with the
native discriminant it writes the same Type. -/
theorem entry_points_share_rules (this1 this2 : resource.Balance) (ctx : context.Context)
    (row : core.Trustline) (v : xdr.Int64) (hrec : xdr.recognized row.Assettype)
    (hbal : row.Balance = v) :
    (resource.Balance.Populate this1 ctx row).1.Balance =
      (resource.Balance.PopulateNative this2 v).1.Balance ∧
    (row.Assettype = xdr.AssetTypeAssetTypeNative →
      (resource.Balance.Populate this1 ctx row).1.Type_ =
        (resource.Balance.PopulateNative this2 v).1.Type_) := by
  rw [Balance_Populate_ok this1 ctx row (assets_String_recognized _ hrec),
    Balance_PopulateNative_eq, hbal]
  refine ⟨rfl, ?_⟩
  intro hnat
  have hn : (assets.String xdr.AssetTypeAssetTypeNative).1 = "native" := by decide
  rw [hnat]
  exact hn

/-- Witness of C13: a native trustline record with balance -42 against the native
entry point on -42, over resources with different content. -/
theorem entry_points_share_rules_witness :
    (resource.Balance.Populate ⟨"a", "b", "c", "d", "e"⟩ ⟨4⟩ ⟨0, "", "", 77, -42⟩).1.Balance =
      (resource.Balance.PopulateNative ⟨"", "", "", "", ""⟩ (-42)).1.Balance ∧
    (resource.Balance.Populate ⟨"a", "b", "c", "d", "e"⟩ ⟨4⟩ ⟨0, "", "", 77, -42⟩).1.Type_ =
      (resource.Balance.PopulateNative ⟨"", "", "", "", ""⟩ (-42)).1.Type_ :=
  ⟨(entry_points_share_rules ⟨"a", "b", "c", "d", "e"⟩ ⟨"", "", "", "", ""⟩ ⟨4⟩
      ⟨0, "", "", 77, -42⟩ (-42) (by decide) rfl).1,
   (entry_points_share_rules ⟨"a", "b", "c", "d", "e"⟩ ⟨"", "", "", "", ""⟩ ⟨4⟩
      ⟨0, "", "", 77, -42⟩ (-42) (by decide) rfl).2 rfl⟩

/-! ## Sign of a formatted amount -/

theorem amount_String_head (v : xdr.Int64) :
    ((amount.String v).data.head? = some '-' ↔ v < 0) := by
  rw [amount_String_data]
  by_cases hneg : v < 0
  · rw [if_pos hneg]
    exact ⟨fun _ => hneg, fun _ => rfl⟩
  · rw [if_neg hneg, List.nil_append]
    obtain ⟨hne, hqd, _⟩ := toDigits_run (v.natAbs / amount.One)
    cases hds : Nat.toDigits 10 (v.natAbs / amount.One) with
    | nil => exact absurd hds hne
    | cons d ds =>
      have hd : d.isDigit = true := hqd d (by rw [hds]; exact List.mem_cons_self d ds)
      constructor
      · intro h
        have hd2 : d = '-' := by simpa using h
        rw [hd2] at hd
        exact absurd hd (by decide)
      · intro h
        exact absurd h hneg

theorem isInt64_neg (v : Int) (hv : xdr.isInt64 v) (hneg : v < 0) (hmin : v ≠ xdr.MinInt64) :
    xdr.isInt64 (-v) := by
  unfold xdr.isInt64 xdr.MinInt64 xdr.MaxInt64 at *
  omega

theorem amount_String_neg (v : xdr.Int64) (hneg : v < 0) :
    amount.String v = "-" ++ amount.String (-v) := by
  have hpos : ¬ (-v < 0) := not_lt.mpr (neg_nonneg.mpr (le_of_lt hneg))
  apply String.ext
  rw [String.data_append, amount_String_data, amount_String_data, if_pos hneg, if_neg hpos,
    Int.natAbs_neg]
  rfl

/-- C14: the formatted amount begins with a minus sign exactly when the amount is
negative, amounts below one unit included (-1 gives "-0.0000001"); 0 gives
"0.0000000"; and a negative amount other than the least 64-bit value has a
64-bit opposite and is formatted as "-" followed by the format of the
opposite. -/
theorem amount_String_sign (v : xdr.Int64) (hv : xdr.isInt64 v) :
    ((amount.String v).data.head? = some '-' ↔ v < 0) ∧
    amount.String (-1) = "-0.0000001" ∧
    amount.String 0 = "0.0000000" ∧
    (v < 0 → v ≠ xdr.MinInt64 →
      xdr.isInt64 (-v) ∧ amount.String v = "-" ++ amount.String (-v)) := by
  refine ⟨amount_String_head v, by decide, by decide, ?_⟩
  intro hneg hmin
  exact ⟨isInt64_neg v hv hneg hmin, amount_String_neg v hneg⟩

/-- Witness of C14: the amount one above the least 64-bit value. -/
theorem amount_String_sign_witness :
    xdr.isInt64 (-9223372036854775807) ∧
    ((amount.String (-9223372036854775807)).data.head? = some '-' ↔
      (-9223372036854775807 : Int) < 0) ∧
    xdr.isInt64 (-(-9223372036854775807)) ∧
    amount.String (-9223372036854775807) = "-" ++ amount.String (-(-9223372036854775807)) :=
  ⟨by decide, (amount_String_sign (-9223372036854775807) (by decide)).1,
   (amount_String_sign (-9223372036854775807) (by decide)).2.2.2 (by decide) (by decide)⟩

/-! ## The integer-only reference -/

theorem abs_div_scale (v : Int) :
    (|v| / 10 ^ 7).toNat = v.natAbs / amount.One ∧
    (|v| % 10 ^ 7).toNat = v.natAbs % amount.One := by
  rw [Int.abs_eq_natAbs]
  unfold amount.One
  constructor
  · have h : ((v.natAbs : Int) / 10 ^ 7) = ((v.natAbs / 10000000 : Nat) : Int) := by
      norm_cast
    rw [h, Int.toNat_natCast]
  · have h : ((v.natAbs : Int) % 10 ^ 7) = ((v.natAbs % 10000000 : Nat) : Int) := by
      norm_cast
    rw [h, Int.toNat_natCast]

theorem amount_String_eq_reference (v : xdr.Int64) :
    amount.String v = amount.StringReference v := by
  obtain ⟨hq, hr⟩ := abs_div_scale v
  apply String.ext
  unfold amount.StringReference
  simp only [String.data_append]
  rw [hq, hr, amount_String_data]
  have hrepr : ∀ n : Nat, (Nat.repr n).data = Nat.toDigits 10 n := fun _ => rfl
  have hpad : ∀ n : Nat, (String.leftpad 7 '0' (Nat.repr n)).data =
      List.replicate (7 - (Nat.toDigits 10 n).length) '0' ++ Nat.toDigits 10 n := fun _ => rfl
  rw [hrepr, hpad]
  by_cases hneg : v < 0
  · rw [if_pos hneg, if_pos hneg]
    have hsign : "-".data = ['-'] := rfl
    rw [hsign]
    simp only [List.append_assoc, List.singleton_append]
  · rw [if_neg hneg, if_neg hneg]
    have hsign : "".data = [] := rfl
    rw [hsign]
    simp only [List.append_assoc, List.singleton_append]

/-- C15: the formatting that `Populate` and `PopulateNative` use is the
integer-only reference: the sign, the digits of |v| div 10^7, a point, and
|v| mod 10^7 padded with zeros to seven digits, |v| unbounded, for every
64-bit amount; the Balance and Limit strings they store are those of the
reference. -/
theorem formatting_refines_reference (v : xdr.Int64) (this : resource.Balance)
    (ctx : context.Context) (row : core.Trustline) (_hv : xdr.isInt64 v)
    (hrec : xdr.recognized row.Assettype) :
    amount.String v = amount.StringReference v ∧
    (resource.Balance.PopulateNative this v).1.Balance = amount.StringReference v ∧
    (resource.Balance.Populate this ctx row).1.Balance = amount.StringReference row.Balance ∧
    (resource.Balance.Populate this ctx row).1.Limit = amount.StringReference row.Tlimit := by
  rw [Balance_Populate_ok this ctx row (assets_String_recognized _ hrec),
    Balance_PopulateNative_eq]
  exact ⟨amount_String_eq_reference v, amount_String_eq_reference v,
    amount_String_eq_reference row.Balance, amount_String_eq_reference row.Tlimit⟩

/-- Witness of C15: the least 64-bit amount, and a credit-alphanum12 record with
the greatest 64-bit amount as limit. -/
theorem formatting_refines_reference_witness :
    xdr.isInt64 (-9223372036854775808) ∧ xdr.recognized (2 : Int) ∧
    amount.String (-9223372036854775808) = amount.StringReference (-9223372036854775808) ∧
    (resource.Balance.PopulateNative ⟨"", "", "", "", ""⟩ (-9223372036854775808)).1.Balance =
      amount.StringReference (-9223372036854775808) ∧
    (resource.Balance.Populate ⟨"", "", "", "", ""⟩ ⟨0⟩
        ⟨2, "GISSUER", "LONGCODE", 9223372036854775807, -1⟩).1.Balance =
      amount.StringReference (-1) ∧
    (resource.Balance.Populate ⟨"", "", "", "", ""⟩ ⟨0⟩
        ⟨2, "GISSUER", "LONGCODE", 9223372036854775807, -1⟩).1.Limit =
      amount.StringReference 9223372036854775807 :=
  ⟨by decide, by decide,
   formatting_refines_reference (-9223372036854775808) ⟨"", "", "", "", ""⟩ ⟨0⟩
     ⟨2, "GISSUER", "LONGCODE", 9223372036854775807, -1⟩ (by decide) (by decide)⟩

/-! ## Frame and idempotence -/

/-- C16: on a record with an unrecognized discriminant `Populate` returns the
prior resource with the single field Type replaced by the string that the
type resolution returned with its error, and returns that error, which is
not nil: Balance, Limit, Issuer and Code are as before the call. -/
theorem Populate_failure_frame (this : resource.Balance) (ctx : context.Context)
    (row : core.Trustline) (h : ¬ xdr.recognized row.Assettype) :
    (assets.String row.Assettype).2 ≠ none ∧
    resource.Balance.Populate this ctx row =
      ({ Type_ := (assets.String row.Assettype).1, Code := this.Code, Issuer := this.Issuer,
         Balance := this.Balance, Limit := this.Limit }, (assets.String row.Assettype).2) := by
  have h3 : (assets.String row.Assettype).2 ≠ none := by
    rw [assets_String_unrecognized _ h]; simp
  exact ⟨h3, Balance_Populate_err this ctx row h3⟩

/-- Witness of C16: discriminant 3 over a resource populated for another asset. -/
theorem Populate_failure_frame_witness :
    ¬ xdr.recognized (3 : Int) ∧
    (assets.String 3).2 ≠ none ∧
    resource.Balance.Populate ⟨"credit_alphanum12", "LONGCODE", "GOLD", "7.0000000", "9.5000000"⟩
        ⟨8⟩ ⟨3, "GNEW", "NEW", 11, 12⟩ =
      ({ Type_ := (assets.String 3).1, Code := "LONGCODE", Issuer := "GOLD",
         Balance := "7.0000000", Limit := "9.5000000" }, (assets.String 3).2) :=
  ⟨by decide,
   Populate_failure_frame ⟨"credit_alphanum12", "LONGCODE", "GOLD", "7.0000000", "9.5000000"⟩
     ⟨8⟩ ⟨3, "GNEW", "NEW", 11, 12⟩ (by decide)⟩

/-- C17, the claim fails: `HistoryAccount.Populate` does not assign the field PT,
so on the same account record two resources that held different paging
tokens give different results: the result depends on the prior content. -/
theorem HistoryAccount_Populate_keeps_PT :
    (resource.HistoryAccount.Populate { ID := "p", PT := "tok", AccountID := "q" } ⟨1⟩
        ⟨"GADDR123"⟩).PT = "tok" ∧
    resource.HistoryAccount.Populate { ID := "p", PT := "tok", AccountID := "q" } ⟨1⟩
        ⟨"GADDR123"⟩ ≠
      resource.HistoryAccount.Populate { ID := "", PT := "", AccountID := "" } ⟨1⟩
        ⟨"GADDR123"⟩ := by
  decide

/-- C17 as amended: a successful `Populate` and every `PopulateNative` overwrite
every field of the balance resource with values taken from the input, so the
result is the same for every prior resource and context;
`HistoryAccount.Populate` overwrites ID and AccountID with the address of the
record and keeps PT, so it does not depend on the context and two results
on the same record agree on ID and AccountID; and all three operations,
applied again to their own result with the same input, change nothing. -/
theorem projections_written_fields_and_idempotent (this1 this2 : resource.Balance)
    (acc1 acc2 : resource.HistoryAccount) (ctx1 ctx2 : context.Context) (row : core.Trustline)
    (stroops : xdr.Int64) (account : history.Account)
    (hok : (resource.Balance.Populate this1 ctx1 row).2 = none) :
    resource.Balance.Populate this1 ctx1 row =
      ({ Type_ := (assets.String row.Assettype).1, Code := row.Assetcode, Issuer := row.Issuer,
         Balance := amount.String row.Balance, Limit := amount.String row.Tlimit }, none) ∧
    resource.Balance.Populate this1 ctx1 row = resource.Balance.Populate this2 ctx2 row ∧
    resource.Balance.Populate (resource.Balance.Populate this1 ctx1 row).1 ctx2 row =
      resource.Balance.Populate this1 ctx1 row ∧
    resource.Balance.PopulateNative this1 stroops =
      ({ Type_ := (assets.String xdr.AssetTypeAssetTypeNative).1, Code := "", Issuer := "",
         Balance := amount.String stroops, Limit := "" }, none) ∧
    resource.Balance.PopulateNative this1 stroops =
      resource.Balance.PopulateNative this2 stroops ∧
    resource.Balance.PopulateNative (resource.Balance.PopulateNative this1 stroops).1 stroops =
      resource.Balance.PopulateNative this1 stroops ∧
    resource.HistoryAccount.Populate acc1 ctx1 account =
      { ID := account.Address, PT := acc1.PT, AccountID := account.Address } ∧
    resource.HistoryAccount.Populate acc1 ctx1 account =
      resource.HistoryAccount.Populate acc1 ctx2 account ∧
    (resource.HistoryAccount.Populate acc1 ctx1 account).ID =
      (resource.HistoryAccount.Populate acc2 ctx2 account).ID ∧
    (resource.HistoryAccount.Populate acc1 ctx1 account).AccountID =
      (resource.HistoryAccount.Populate acc2 ctx2 account).AccountID ∧
    resource.HistoryAccount.Populate (resource.HistoryAccount.Populate acc1 ctx1 account) ctx2
        account = resource.HistoryAccount.Populate acc1 ctx1 account := by
  have herr : (assets.String row.Assettype).2 = none := by
    rw [← Balance_Populate_error this1 ctx1 row]; exact hok
  have hn : (assets.String xdr.AssetTypeAssetTypeNative).1 = "native" := by decide
  refine ⟨Balance_Populate_ok this1 ctx1 row herr, ?_, ?_, ?_, ?_, ?_, rfl, rfl, rfl, rfl, rfl⟩
  · rw [Balance_Populate_ok this1 ctx1 row herr, Balance_Populate_ok this2 ctx2 row herr]
  · rw [Balance_Populate_ok _ ctx2 row herr, Balance_Populate_ok this1 ctx1 row herr]
  · rw [Balance_PopulateNative_eq, hn]
  · rw [Balance_PopulateNative_eq, Balance_PopulateNative_eq]
  · rw [Balance_PopulateNative_eq, Balance_PopulateNative_eq]

/-- Witness of the amended C17: a credit-alphanum4 record, the amount -3 and the
address "GADDR123", over resources and contexts that differ. -/
theorem projections_written_fields_and_idempotent_witness :
    (resource.Balance.Populate ⟨"x", "y", "z", "u", "w"⟩ ⟨1⟩ ⟨1, "GISSUER", "USD", 20, 10⟩).2 =
      none ∧
    resource.Balance.Populate ⟨"x", "y", "z", "u", "w"⟩ ⟨1⟩ ⟨1, "GISSUER", "USD", 20, 10⟩ =
      ({ Type_ := (assets.String 1).1, Code := "USD", Issuer := "GISSUER",
         Balance := amount.String 10, Limit := amount.String 20 }, none) ∧
    resource.Balance.Populate ⟨"x", "y", "z", "u", "w"⟩ ⟨1⟩ ⟨1, "GISSUER", "USD", 20, 10⟩ =
      resource.Balance.Populate ⟨"", "", "", "", ""⟩ ⟨2⟩ ⟨1, "GISSUER", "USD", 20, 10⟩ ∧
    resource.HistoryAccount.Populate { ID := "p", PT := "tok", AccountID := "q" } ⟨1⟩
        ⟨"GADDR123"⟩ = { ID := "GADDR123", PT := "tok", AccountID := "GADDR123" } ∧
    resource.HistoryAccount.Populate
        (resource.HistoryAccount.Populate { ID := "p", PT := "tok", AccountID := "q" } ⟨1⟩
          ⟨"GADDR123"⟩) ⟨2⟩ ⟨"GADDR123"⟩ =
      resource.HistoryAccount.Populate { ID := "p", PT := "tok", AccountID := "q" } ⟨1⟩
        ⟨"GADDR123"⟩ :=
  ⟨by decide,
   (projections_written_fields_and_idempotent ⟨"x", "y", "z", "u", "w"⟩ ⟨"", "", "", "", ""⟩
      { ID := "p", PT := "tok", AccountID := "q" } { ID := "", PT := "", AccountID := "" }
      ⟨1⟩ ⟨2⟩ ⟨1, "GISSUER", "USD", 20, 10⟩ (-3) ⟨"GADDR123"⟩ (by decide)).1,
   (projections_written_fields_and_idempotent ⟨"x", "y", "z", "u", "w"⟩ ⟨"", "", "", "", ""⟩
      { ID := "p", PT := "tok", AccountID := "q" } { ID := "", PT := "", AccountID := "" }
      ⟨1⟩ ⟨2⟩ ⟨1, "GISSUER", "USD", 20, 10⟩ (-3) ⟨"GADDR123"⟩ (by decide)).2.1,
   (projections_written_fields_and_idempotent ⟨"x", "y", "z", "u", "w"⟩ ⟨"", "", "", "", ""⟩
      { ID := "p", PT := "tok", AccountID := "q" } { ID := "", PT := "", AccountID := "" }
      ⟨1⟩ ⟨2⟩ ⟨1, "GISSUER", "USD", 20, 10⟩ (-3) ⟨"GADDR123"⟩ (by decide)).2.2.2.2.2.2.1,
   (projections_written_fields_and_idempotent ⟨"x", "y", "z", "u", "w"⟩ ⟨"", "", "", "", ""⟩
      { ID := "p", PT := "tok", AccountID := "q" } { ID := "", PT := "", AccountID := "" }
      ⟨1⟩ ⟨2⟩ ⟨1, "GISSUER", "USD", 20, 10⟩ (-3) ⟨"GADDR123"⟩ (by decide)).2.2.2.2.2.2.2.2.2.2⟩
